import Mathlib

/-!
Verification development for the nrr-cx-starter repository.

This file gives a shallow embedding, in Lean 4, of the aggregation and
classification logic of the repository's dashboard templates:

* the Function Rollup of `templates/assessment/ui/src/components/PriorityRoadmap.tsx`,
* the roadmap summary footer of the same file,
* the Prioritized Roadmap table (`PriorityMatrix`),
* the quartile / offshoring-rating / maturity classification helpers,
* the function-panel color lookup of `FunctionPanel.tsx`,
* the document-fetch fallback paths of the portal diagnostics table and the
  assessment app shell.

JavaScript numbers are modelled as exact rationals (`Rat`); all the claims
under study concern sums and order comparisons of small decimal quantities,
not float rounding.  JavaScript objects keyed by strings are modelled as
association lists in insertion order (ECMAScript guarantees string keys
enumerate in insertion order, and `Object.values` follows that order).
`Array.prototype.sort` is stable (ES2019), so a comparator
`(a, b) => keyOf b - keyOf a` is modelled by a stable descending insertion
sort on the key.
-/

namespace NrrCx

/-! ## Data model (from `templates/assessment/ui/src/services/api.ts`) -/

/-- `RoadmapRoleItem` of api.ts: one role-level lever item. -/
structure RoadmapRoleItem where
  role : String
  function : String
  function_key : String
  lever : String
  year : Int
  impact_ftes : Rat
  description : String
deriving DecidableEq, Repr

/-- `AIUseCase` of api.ts.  `estimated_ticket_deflection_pct` is `number | null`. -/
structure AIUseCase where
  id : String
  name : String
  description : String
  mechanism : String
  year : Int
  half : String
  category : String
  horizon : String
  impacted_roles : List String
  impacted_functions : List String
  estimated_ticket_deflection_pct : Option Rat
  estimated_fte_impact : Rat
deriving DecidableEq, Repr

/-- `RoadmapYearData` of api.ts: the three lever lists of one year. -/
structure RoadmapYearData where
  productivity : List RoadmapRoleItem
  offshoring : List RoadmapRoleItem
  ai : List AIUseCase
deriving DecidableEq, Repr

/-- The `years` record of the `Roadmap` interface, with its three fixed keys. -/
structure RoadmapYears where
  y2026 : RoadmapYearData
  y2027 : RoadmapYearData
  y2028 : RoadmapYearData
deriving DecidableEq, Repr

/-- `Roadmap` of api.ts. -/
structure Roadmap where
  years : RoadmapYears
  ai_use_cases : List AIUseCase
deriving DecidableEq, Repr

/-- `PriorityItem` of api.ts: a flattened roadmap row for `PriorityMatrix`. -/
structure PriorityItem where
  role : String
  function : String
  lever : String
  category : String
  impact_ftes : Rat
  rationale : String
deriving DecidableEq, Repr

/-! ## Stable descending sort (model of `Array.prototype.sort` with
comparator `(a, b) => key b - key a`; stable per ES2019). -/

/-- Insert `x` before the first element whose key is `≤ key x`; elements with a
strictly larger key stay in front.  Used by `sortDescBy`. -/
def insertDescBy (key : α → Rat) (x : α) : List α → List α
  | [] => [x]
  | y :: ys => if key y ≤ key x then x :: y :: ys else y :: insertDescBy key x ys

/-- Stable insertion sort, descending on `key`.  Extensionally equal to any
stable sort with comparator `(a, b) => key b - key a`. -/
def sortDescBy (key : α → Rat) : List α → List α
  | [] => []
  | x :: xs => insertDescBy key x (sortDescBy key xs)

/-- Non-increasing on `key`, position by position. -/
abbrev sortedDescBy (key : α → Rat) (l : List α) : Prop :=
  l.Pairwise (fun a b => key b ≤ key a)

/-! ## Function Rollup (`FunctionRollup` in `PriorityRoadmap.tsx`) -/

/-- One entry of the `byFunction` record built by `FunctionRollup`. -/
structure RollupGroup where
  function : String
  function_key : String
  totalFtes : Rat
  count : Nat
deriving DecidableEq, Repr

/-- One step of the `for (const item of items)` loop of `FunctionRollup`:
create the group on first sight of a `function_key` (taking the display name
from that first item), then add `impact_ftes` and bump the count. -/
def upsertGroup : List RollupGroup → RoadmapRoleItem → List RollupGroup
  | [], item => [⟨item.function, item.function_key, item.impact_ftes, 1⟩]
  | g :: gs, item =>
    if g.function_key = item.function_key then
      { g with totalFtes := g.totalFtes + item.impact_ftes, count := g.count + 1 } :: gs
    else
      g :: upsertGroup gs item

/-- The `byFunction` record of `FunctionRollup`, as `Object.values` returns it:
one group per distinct `function_key`, in insertion (first-occurrence) order. -/
def byFunctionGroups (items : List RoadmapRoleItem) : List RollupGroup :=
  items.foldl upsertGroup []

/-- `const groups = Object.values(byFunction).sort((a, b) => b.totalFtes - a.totalFtes)`. -/
def functionRollupGroups (items : List RoadmapRoleItem) : List RollupGroup :=
  sortDescBy (fun g => g.totalFtes) (byFunctionGroups items)

/-- `const totalFtes = groups.reduce((s, g) => s + g.totalFtes, 0)`. -/
def functionRollupGrandTotal (items : List RoadmapRoleItem) : Rat :=
  (functionRollupGroups items).foldl (fun s g => s + g.totalFtes) 0

/-- Measure used to state the rollup claims: the input items carrying a key. -/
def itemsWithKey (items : List RoadmapRoleItem) (k : String) : List RoadmapRoleItem :=
  items.filter (fun i => i.function_key == k)

/-- Measure used to state the stable-tie-break claim: the groups at one total. -/
def groupsWithTotal (gs : List RollupGroup) (t : Rat) : List RollupGroup :=
  gs.filter (fun g => g.totalFtes == t)

/-! ## Prioritized Roadmap table (`PriorityMatrix` in the same module as api.ts)

The component renders `items.slice(0, 20).map((item, idx) => ...)` and prints
`idx + 1` in the rank column.  It performs no sorting of its own. -/

/-- The `.map((item, idx) => ...)` body: pair each item with its printed rank
`idx + 1`, threading the running index. -/
def rankRows (idx : Nat) : List PriorityItem → List (Nat × PriorityItem)
  | [] => []
  | x :: xs => (idx + 1, x) :: rankRows (idx + 1) xs

/-- The row list of the `PriorityMatrix` table body:
`items.slice(0, 20)` with ranks `idx + 1` assigned by position.
(For an empty `items` the component returns `null`; the row list is `[]`.) -/
def priorityMatrixRows (items : List PriorityItem) : List (Nat × PriorityItem) :=
  rankRows 0 (items.take 20)

/-! ## Classification helpers -/

/-- `quartileColor` of the `NRRBenchmark` components: thresholds are passed as
`(nrr, q1, q4, median)` and callers supply
`(p.nrr, topQuartile, bottomQuartile, median)`. -/
def quartileColor (nrr q1 q4 median : Rat) : String :=
  if nrr ≥ q1 then "#10b981"
  else if nrr ≥ median then "#3b82f6"
  else if nrr ≥ q4 then "#f59e0b"
  else "#ef4444"

/-- The legend rendered next to the chart pairs the four fill colors with the
quartile labels: emerald-500 `#10b981` = Q1, blue-500 `#3b82f6` = Q2,
amber-500 `#f59e0b` = Q3, red-500 `#ef4444` = Q4. -/
def quartileOfColor (c : String) : String :=
  if c = "#10b981" then "Q1"
  else if c = "#3b82f6" then "Q2"
  else if c = "#f59e0b" then "Q3"
  else if c = "#ef4444" then "Q4"
  else ""

/-- The quartile the chart assigns to an NRR value: the color computed by
`quartileColor`, read back through the on-page legend. -/
def nrrQuartile (v q1 q4 median : Rat) : String :=
  quartileOfColor (quartileColor v q1 q4 median)

/-- `QuartileBadge` color map of `NRRBenchmark`: `colorMap[label] ?? "bg-slate-100 text-slate-800"`. -/
def quartileBadgeColor (label : String) : String :=
  (([("Q1", "bg-emerald-100 text-emerald-800"),
     ("Q2", "bg-blue-100 text-blue-800"),
     ("Q3", "bg-amber-100 text-amber-800"),
     ("Q4", "bg-red-100 text-red-800")] : List (String × String)).lookup label).getD
    "bg-slate-100 text-slate-800"

/-- `offshoreColor` of `RoleDetail.tsx`: an if-chain over the rating string
with a gray default arm. -/
def offshoreColor (rating : String) : String :=
  if rating = "High" then "bg-emerald-50 border-emerald-200 text-emerald-800"
  else if rating = "Medium-High" then "bg-lime-50 border-lime-200 text-lime-800"
  else if rating = "Medium" then "bg-amber-50 border-amber-200 text-amber-800"
  else if rating = "Low" then "bg-orange-50 border-orange-200 text-orange-800"
  else if rating = "Not Recommended" then "bg-red-50 border-red-200 text-red-800"
  else "bg-gray-50 border-gray-200 text-gray-700"

/-- `MATURITY_VALUE` of `MaturityAssessment.tsx`: `{ Basic: 1, Advanced: 2, "Next-gen": 3 }`. -/
def MATURITY_VALUE : List (String × Nat) :=
  [("Basic", 1), ("Advanced", 2), ("Next-gen", 3)]

/-- The current-level lookup of `radarData`: `MATURITY_VALUE[dim.current] ?? 1`. -/
def maturityCurrentValue (level : String) : Nat :=
  (MATURITY_VALUE.lookup level).getD 1

/-- The target-level lookup of `radarData`: `MATURITY_VALUE[dim.target] ?? 3`. -/
def maturityTargetValue (level : String) : Nat :=
  (MATURITY_VALUE.lookup level).getD 3

/-! ## Function panel color lookup (`FunctionPanel.tsx`) -/

/-- One entry of `FUNC_COLORS`. -/
structure FuncColorScheme where
  bg : String
  badge : String
  accent : String
deriving DecidableEq, Repr

/-- The `professional_services` (blue) scheme, first entry of `FUNC_COLORS`. -/
def psColors : FuncColorScheme :=
  ⟨"bg-blue-50", "bg-blue-100 text-blue-800", "border-blue-300"⟩

/-- `FUNC_COLORS` of `FunctionPanel.tsx`. -/
def FUNC_COLORS : List (String × FuncColorScheme) :=
  [("professional_services", psColors),
   ("customer_success", ⟨"bg-emerald-50", "bg-emerald-100 text-emerald-800", "border-emerald-300"⟩),
   ("customer_support", ⟨"bg-amber-50", "bg-amber-100 text-amber-800", "border-amber-300"⟩)]

/-! ## Remaining assessment document types (api.ts), needed for the app shell
and the function panel.  `number | null` fields become `Option Rat`; the TS
string-literal unions (`sentiment`) stay strings, as in the runtime JSON. -/

/-- `CompanyData` of api.ts. -/
structure CompanyData where
  name : String
  ticker : Option String
  ownership : String
  industry : String
  clinicians_on_platform : Option Rat
  revenue_usd : Option Rat
  employees : Option Rat
  revenue_per_employee : Option Rat
  india_employees : Option Rat
  india_locations : List String
  us_locations : List String
deriving DecidableEq, Repr

/-- `PeerFinancial` of api.ts. -/
structure PeerFinancial where
  name : String
  revenue_usd : Option Rat
  employees : Option Rat
  revenue_per_employee : Option Rat
  note : String
deriving DecidableEq, Repr

/-- `HorizonDetail` of api.ts. -/
structure HorizonDetail where
  tasks : String
  impact_pct : Rat
deriving DecidableEq, Repr

/-- `ProductivityData` of api.ts. -/
structure ProductivityData where
  opportunity_ftes : Rat
  excess_above_median : Rat
  has_opportunity : Bool
deriving DecidableEq, Repr

/-- `AIData` of api.ts. -/
structure AIData where
  h1_automate : HorizonDetail
  h2_ai_assisted : HorizonDetail
  h3_agentic : HorizonDetail
  total_impact_pct : Rat
  efficiency_pct_2026 : Rat
  efficiency_pct_2027 : Rat
  efficiency_pct_2028 : Rat
  ai_adjustment_factor : Rat
  impact_ftes : Option Rat
deriving DecidableEq, Repr

/-- `OffshoringData` of api.ts. -/
structure OffshoringData where
  rating : String
  rationale : String
  current_offshore_pct : Rat
  benchmark_offshore_pct : Rat
  gap_pct : Rat
  gap_ftes : Option Rat
  notes : String
deriving DecidableEq, Repr

/-- `RoleCosts` of api.ts. -/
structure RoleCosts where
  onshore_usd : Rat
  offshore_usd : Rat
  blended_cost : Rat
deriving DecidableEq, Repr

/-- `RoleData` of api.ts. -/
structure RoleData where
  role : String
  short : String
  description : String
  estimated_ftes : Option Rat
  fte_source : String
  fte_source_note : String
  current_offshore_pct : Rat
  benchmark_range : Option Rat × Option Rat
  benchmark_median : Option Rat
  pct_vs_benchmark : Rat
  productivity : ProductivityData
  ai : AIData
  offshoring : OffshoringData
  costs : RoleCosts
deriving DecidableEq, Repr

/-- `FunctionSummary` of api.ts. -/
structure FunctionSummary where
  total_ai_addressable_ftes : Rat
  total_offshore_gap_ftes : Rat
  total_productivity_ftes : Rat
deriving DecidableEq, Repr

/-- `CommentaryQuote` of api.ts (`sentiment` is the literal union
`'positive' | 'negative'`, kept as a string). -/
structure CommentaryQuote where
  text : String
  source : String
  date : String
  relevance : String
  sentiment : String
deriving DecidableEq, Repr

/-- `FunctionCommentary` of api.ts. -/
structure FunctionCommentary where
  theme : String
  quotes : List CommentaryQuote
  insight_summary : String
deriving DecidableEq, Repr

/-- `FunctionData` of api.ts. -/
structure FunctionData where
  function : String
  function_key : String
  typical_pct_of_headcount : Rat × Rat
  estimated_total_ftes : Option Rat
  estimation_note : String
  roles : List RoleData
  summary : FunctionSummary
  commentary : FunctionCommentary
deriving DecidableEq, Repr

/-- `AssessmentSummary` of api.ts. -/
structure AssessmentSummary where
  total_customer_ops_ftes : Rat
  total_ai_addressable_ftes : Rat
  total_offshore_gap_ftes : Rat
  total_productivity_ftes : Rat
  ai_pct_of_total : Option Rat
  offshore_gap_pct_of_total : Option Rat
  productivity_pct_of_total : Option Rat
deriving DecidableEq, Repr

/-- `DollarImpactYear` of api.ts. -/
structure DollarImpactYear where
  productivity : Rat
  ai : Rat
  offshoring : Rat
  total : Rat
deriving DecidableEq, Repr

/-- `DollarImpact` of api.ts. -/
structure DollarImpact where
  y2026 : DollarImpactYear
  y2027 : DollarImpactYear
  y2028 : DollarImpactYear
deriving DecidableEq, Repr

/-- `AssessmentData` of api.ts: the whole fetched document. -/
structure AssessmentData where
  company : CompanyData
  peer_financials : List PeerFinancial
  functions : List FunctionData
  summary : AssessmentSummary
  dollar_impact : DollarImpact
  roadmap : Roadmap
deriving DecidableEq, Repr

/-- `FunctionPanel`: `FUNC_COLORS[data.function_key] ?? FUNC_COLORS.professional_services`. -/
def funcPanelColors (data : FunctionData) : FuncColorScheme :=
  (FUNC_COLORS.lookup data.function_key).getD psColors

/-! ## Roadmap summary footer (`RoadmapSummary` in `PriorityRoadmap.tsx`) -/

/-- `RoadmapSummary` over the well-typed `Roadmap`:
`totalAiFtes` reduces over the flat all-years `ai_use_cases` list, while
`totalProdFtes` and `totalOffFtes` reduce over the 2026 lists only.
Components: (AI, productivity, offshoring). -/
def roadmapSummary (r : Roadmap) : Rat × Rat × Rat :=
  (r.ai_use_cases.foldl (fun s uc => s + uc.estimated_fte_impact) 0,
   r.years.y2026.productivity.foldl (fun s i => s + i.impact_ftes) 0,
   r.years.y2026.offshoring.foldl (fun s i => s + i.impact_ftes) 0)

/-! ## Runtime view of the roadmap document (for the totality claim)

The fetched JSON is used without validation (`res.json()` is cast to
`AssessmentData`), so at runtime `roadmap.years` is a plain object whose keys
may be missing.  We model it as an association list.  Accessing a member of
`roadmap.years[year]` when the key is absent throws a `TypeError` in
JavaScript; the embedding returns `none` in that case. -/

/-- A roadmap document as it exists at runtime: the year map is an arbitrary
string-keyed object. -/
structure RoadmapDoc where
  years : List (String × RoadmapYearData)
  ai_use_cases : List AIUseCase
deriving DecidableEq, Repr

/-- What one year column of `PriorityRoadmap` computes from `yearData`. -/
structure YearCell where
  aiCount : Nat
  prodGroups : List RollupGroup
  prodTotal : Rat
  offGroups : List RollupGroup
  offTotal : Rat
  showsEmptyState : Bool
deriving DecidableEq, Repr

/-- One year column: `const yearData = roadmap.years[year]` followed by member
accesses (`yearData.ai.length`, the two `FunctionRollup`s, the empty-state
test).  A missing year key makes the first member access throw: `none`. -/
def renderYearCell (doc : RoadmapDoc) (year : String) : Option YearCell :=
  match doc.years.lookup year with
  | none => none
  | some d =>
    some ⟨d.ai.length,
          functionRollupGroups d.productivity, functionRollupGrandTotal d.productivity,
          functionRollupGroups d.offshoring, functionRollupGrandTotal d.offshoring,
          d.productivity.isEmpty && d.offshoring.isEmpty && d.ai.isEmpty⟩

/-- The summary footer at runtime: `roadmap.years['2026'].productivity.reduce(...)`
throws when the `'2026'` key is absent. -/
def roadmapSummaryOfDoc (doc : RoadmapDoc) : Option (Rat × Rat × Rat) :=
  match doc.years.lookup "2026" with
  | none => none
  | some d =>
    some (doc.ai_use_cases.foldl (fun s uc => s + uc.estimated_fte_impact) 0,
          d.productivity.foldl (fun s i => s + i.impact_ftes) 0,
          d.offshoring.foldl (fun s i => s + i.impact_ftes) 0)

/-- The whole `PriorityRoadmap` render: the three year columns (2026 first)
plus the summary footer; any missing year key throws out of the render. -/
def priorityRoadmapRender (doc : RoadmapDoc) :
    Option (List YearCell × (Rat × Rat × Rat)) :=
  match renderYearCell doc "2026", renderYearCell doc "2027",
        renderYearCell doc "2028", roadmapSummaryOfDoc doc with
  | some a, some b, some c, some s => some ([a, b, c], s)
  | _, _, _, _ => none

/-! ## Fetch / fallback paths -/

/-- Outcome of a single fetch attempt: the parsed payload, or the thrown
error's message (non-ok status, network failure, JSON parse failure). -/
inductive FetchOutcome (α : Type) where
  | success : α → FetchOutcome α
  | failure : String → FetchOutcome α
deriving DecidableEq, Repr

/-- `Diagnostic` of `portal/src/data/diagnostics.ts` (`product` is the literal
union `"basic" | "enhanced" | "agentic"`, kept as a string). -/
structure Diagnostic where
  client : String
  product : String
  url : String
  created : String
  author : String
  status : String
  nrr : String
  sector : String
  description : String
deriving DecidableEq, Repr

/-- A parsed diagnostics payload: `Array.isArray(data)` either fails or yields
a list. -/
inductive DiagPayload where
  | notArray : DiagPayload
  | arr : List Diagnostic → DiagPayload
deriving DecidableEq, Repr

/-- `DiagnosticsTable` state after the load effect settles:
`useState(fallbackDiagnostics)` is replaced only on a successful fetch of a
non-empty array, which also sets `isLive`; every other outcome keeps the
bundled fallback with `isLive = false`. -/
def diagnosticsAfterLoad (fallback : List Diagnostic) :
    FetchOutcome DiagPayload → List Diagnostic × Bool
  | .failure _ => (fallback, false)
  | .success .notArray => (fallback, false)
  | .success (.arr ds) => if ds.isEmpty then (fallback, false) else (ds, true)

/-- The assessment `App` view state after the load effect settles. -/
structure AppView where
  assessment : Option AssessmentData
  error : Option String
deriving DecidableEq, Repr

/-- `App.tsx`: `fetchAssessment().then(setAssessment).catch(err => setError ...)`.
A failure surfaces an error banner; no bundled copy is installed. -/
def appAfterLoad : FetchOutcome AssessmentData → AppView
  | .success d => ⟨some d, none⟩
  | .failure msg => ⟨none, some msg⟩

/-! ## NRR benchmark chart (basic / enhanced `NRRBenchmark.tsx`, part_004) -/

/-- `PeerDataPoint` of `lib/types.ts` (`isEstimated` is optional). -/
structure PeerDataPoint where
  company : String
  nrr : Rat
  period : String
  isTarget : Bool
  isEstimated : Option Bool
deriving DecidableEq, Repr

/-- The `peers` statistics block of `NRRData`. -/
structure PeerStats where
  count : Nat
  median : Rat
  topQuartile : Rat
  bottomQuartile : Rat
  range : String
deriving DecidableEq, Repr

/-- One `history` entry of `NRRData`. -/
structure HistoryPoint where
  period : String
  nrr : Rat
deriving DecidableEq, Repr

/-- One `managementCommentary` entry of `NRRData`. -/
structure ManagementQuote where
  quote : String
  source : String
deriving DecidableEq, Repr

/-- `NRRData` of `lib/types.ts`. -/
structure NRRData where
  current : Rat
  currentPeriod : String
  quartile : String
  history : List HistoryPoint
  peers : PeerStats
  peerData : List PeerDataPoint
  methodologyNotes : List String
  managementCommentary : List ManagementQuote
deriving DecidableEq, Repr

/-- One `chartData` entry built by `NRRBenchmark`. -/
structure ChartDatum where
  name : String
  nrr : Rat
  isTarget : Bool
  isEstimated : Bool
  period : String
  fill : String
  opacity : Rat
deriving DecidableEq, Repr

/-- `NRRBenchmark` chart computation with the document state threaded through:
`const sortedPeers = [...nrr.peerData].sort((a, b) => b.nrr - a.nrr)` sorts the
spread copy in place, so the document handed back is the untouched input. -/
def nrrBenchmarkChart (nrr : NRRData) : List ChartDatum × NRRData :=
  (let sortedPeers := sortDescBy (fun p => p.nrr) nrr.peerData
   sortedPeers.map (fun p =>
     ⟨p.company, p.nrr, p.isTarget, p.isEstimated.getD false, p.period,
      if p.isTarget then "#6366f1"
      else quartileColor p.nrr nrr.peers.topQuartile nrr.peers.bottomQuartile nrr.peers.median,
      if p.isEstimated.getD false then (6 : Rat) / 10 else 1⟩),
   nrr)

/-- `FunctionRollup` with the item-list state threaded through: it only reads
`items`. -/
def functionRollupRun (items : List RoadmapRoleItem) :
    (List RollupGroup × Rat) × List RoadmapRoleItem :=
  ((functionRollupGroups items, functionRollupGrandTotal items), items)

/-- `RoadmapSummary` with the roadmap state threaded through: it only reads
`roadmap`. -/
def roadmapSummaryRun (r : Roadmap) : (Rat × Rat × Rat) × Roadmap :=
  (roadmapSummary r, r)

/-! ## Concrete inputs used by witnesses and counterexamples -/

/-- Example 1 of the spec: three 2026 productivity items. -/
def ex1Items : List RoadmapRoleItem :=
  [⟨"CSM", "Customer Success", "customer_success", "Productivity", 2026, 10, ""⟩,
   ⟨"Renewal Manager", "Customer Success", "customer_success", "Productivity", 2026, 5, ""⟩,
   ⟨"Support Agent", "Support", "support", "Productivity", 2026, 8, ""⟩]

/-- The customer_success group Example 1 should roll up to. -/
def csGroup : RollupGroup := ⟨"Customer Success", "customer_success", 15, 2⟩

/-- A low-impact priority row. -/
def pLow : PriorityItem := ⟨"Role A", "Support", "Automation", "Quick Win", 1, ""⟩

/-- A high-impact priority row. -/
def pHigh : PriorityItem := ⟨"Role B", "Support", "Automation", "Quick Win", 2, ""⟩

/-- A year with no items in any lever. -/
def emptyYearData : RoadmapYearData := ⟨[], [], []⟩

/-- A runtime roadmap document whose year map lacks the `'2026'` key. -/
def docMissing2026 : RoadmapDoc :=
  ⟨[("2027", emptyYearData), ("2028", emptyYearData)], []⟩

/-- A runtime roadmap document with all three year keys, each year empty. -/
def docAllYears : RoadmapDoc :=
  ⟨[("2026", emptyYearData), ("2027", emptyYearData), ("2028", emptyYearData)], []⟩

/-- A `FunctionData` whose key is outside the `FUNC_COLORS` map. -/
def unknownDeptFunction : FunctionData :=
  ⟨"Unknown Dept", "unknown_dept", (0, 0), none, "", [], ⟨0, 0, 0⟩, ⟨"", [], ""⟩⟩

/-- A concrete diagnostics-list entry (first entry of the bundled fallback). -/
def sampleDiagnostic : Diagnostic :=
  ⟨"Databricks", "enhanced", "https://nrr-cx-databricks-enhanced.vercel.app",
   "2026-02-09", "Jake", "deployed", "140%", "Data Intelligence Platform", ""⟩

/-! ## Lemmas about the stable descending sort -/

/-- Inserting permutes: `insertDescBy key x l` is `x :: l` up to order. -/
theorem perm_insertDescBy (key : α → Rat) (x : α) (l : List α) :
    List.Perm (insertDescBy key x l) (x :: l) := by
  induction l with
  | nil => simp [insertDescBy]
  | cons y ys ih =>
    by_cases h : key y ≤ key x
    · simp [insertDescBy, h]
    · simp only [insertDescBy, if_neg h]
      exact (List.Perm.cons y ih).trans (List.Perm.swap x y ys)

/-- Sorting permutes. -/
theorem perm_sortDescBy (key : α → Rat) (l : List α) :
    List.Perm (sortDescBy key l) l := by
  induction l with
  | nil => simp [sortDescBy]
  | cons x xs ih =>
    exact (perm_insertDescBy key x (sortDescBy key xs)).trans (ih.cons x)

/-- Inserting into a non-increasing list keeps it non-increasing. -/
theorem sorted_insertDescBy (key : α → Rat) (x : α) (l : List α)
    (hl : sortedDescBy key l) : sortedDescBy key (insertDescBy key x l) := by
  induction l with
  | nil => simp [insertDescBy, sortedDescBy]
  | cons y ys ih =>
    rcases List.pairwise_cons.mp hl with ⟨hy, hys⟩
    by_cases h : key y ≤ key x
    · simp only [insertDescBy, if_pos h]
      refine List.pairwise_cons.mpr ⟨?_, hl⟩
      intro z hz
      rcases List.mem_cons.mp hz with rfl | hz2
      · exact h
      · exact le_trans (hy z hz2) h
    · simp only [insertDescBy, if_neg h]
      refine List.pairwise_cons.mpr ⟨?_, ih hys⟩
      intro z hz
      rcases List.mem_cons.mp ((perm_insertDescBy key x ys).mem_iff.mp hz) with rfl | hz3
      · exact le_of_lt (lt_of_not_le h)
      · exact hy z hz3

/-- The sort's output is non-increasing on the key. -/
theorem sorted_sortDescBy (key : α → Rat) (l : List α) :
    sortedDescBy key (sortDescBy key l) := by
  induction l with
  | nil => simp [sortDescBy, sortedDescBy]
  | cons x xs ih => exact sorted_insertDescBy key x _ ih

/-- Stability, inserting: among elements of one key value, the inserted
element lands first and the rest keep their order. -/
theorem filter_key_insertDescBy (key : α → Rat) (x : α) (l : List α) (t : Rat) :
    (insertDescBy key x l).filter (fun a => key a == t) =
      if key x = t then x :: l.filter (fun a => key a == t)
      else l.filter (fun a => key a == t) := by
  induction l with
  | nil => by_cases h : key x = t <;> simp [insertDescBy, h]
  | cons y ys ih =>
    by_cases hyx : key y ≤ key x
    · simp only [insertDescBy, if_pos hyx]
      by_cases h : key x = t <;> simp [List.filter_cons, h]
    · simp only [insertDescBy, if_neg hyx]
      have hxy : key x < key y := lt_of_not_le hyx
      by_cases hy : key y = t
      · have hx : ¬ key x = t := by
          intro hx
          exact absurd (hx.trans hy.symm) (ne_of_lt hxy)
        simp [List.filter_cons, hy, hx, ih]
      · by_cases h : key x = t <;> simp [List.filter_cons, hy, h, ih]

/-- Stability, sorting: for each key value `t`, the sorted list's elements at
`t` are exactly the input's elements at `t`, in input order. -/
theorem filter_key_sortDescBy (key : α → Rat) (l : List α) (t : Rat) :
    (sortDescBy key l).filter (fun a => key a == t) =
      l.filter (fun a => key a == t) := by
  induction l with
  | nil => rfl
  | cons x xs ih =>
    by_cases h : key x = t <;>
      simp [sortDescBy, filter_key_insertDescBy, h, List.filter_cons, ih]

/-! ## Lemmas about the Function Rollup accumulator -/

/-- One loop step adds the item's FTEs to the running total of its key. -/
theorem keyTotal_upsertGroup (gs : List RollupGroup) (i : RoadmapRoleItem) (k : String) :
    (((upsertGroup gs i).filter (fun g => g.function_key == k)).map (fun g => g.totalFtes)).sum =
      ((gs.filter (fun g => g.function_key == k)).map (fun g => g.totalFtes)).sum +
        (if i.function_key = k then i.impact_ftes else 0) := by
  induction gs with
  | nil => by_cases h : i.function_key = k <;> simp [upsertGroup, h]
  | cons g gs ih =>
    by_cases hgi : g.function_key = i.function_key
    · simp only [upsertGroup, if_pos hgi]
      by_cases hk : g.function_key = k
      · have hik : i.function_key = k := hgi.symm.trans hk
        simp [List.filter_cons, hk, hik]
        ring
      · have hik : ¬ i.function_key = k := fun h => hk (hgi.trans h)
        simp [List.filter_cons, hk, hik]
    · simp only [upsertGroup, if_neg hgi]
      by_cases hk : g.function_key = k
      · simp [List.filter_cons, hk, ih]
        by_cases h : i.function_key = k
        · simp [h]
          ring
        · simp [h]
      · simp [List.filter_cons, hk, ih]

/-- One loop step bumps the running count of the item's key by one. -/
theorem keyCount_upsertGroup (gs : List RollupGroup) (i : RoadmapRoleItem) (k : String) :
    (((upsertGroup gs i).filter (fun g => g.function_key == k)).map (fun g => g.count)).sum =
      ((gs.filter (fun g => g.function_key == k)).map (fun g => g.count)).sum +
        (if i.function_key = k then 1 else 0) := by
  induction gs with
  | nil => by_cases h : i.function_key = k <;> simp [upsertGroup, h]
  | cons g gs ih =>
    by_cases hgi : g.function_key = i.function_key
    · simp only [upsertGroup, if_pos hgi]
      by_cases hk : g.function_key = k
      · have hik : i.function_key = k := hgi.symm.trans hk
        simp [List.filter_cons, hk, hik]
        omega
      · have hik : ¬ i.function_key = k := fun h => hk (hgi.trans h)
        simp [List.filter_cons, hk, hik]
    · simp only [upsertGroup, if_neg hgi]
      by_cases hk : g.function_key = k
      · simp [List.filter_cons, hk, ih]
        by_cases h : i.function_key = k
        · simp [h]
          omega
        · simp [h]
      · simp [List.filter_cons, hk, ih]

/-- Folding the loop: per-key totals accumulate the matching items' FTEs. -/
theorem keyTotal_foldl (items : List RoadmapRoleItem) :
    ∀ (acc : List RollupGroup) (k : String),
      (((items.foldl upsertGroup acc).filter (fun g => g.function_key == k)).map
          (fun g => g.totalFtes)).sum =
        ((acc.filter (fun g => g.function_key == k)).map (fun g => g.totalFtes)).sum +
          ((itemsWithKey items k).map (fun i => i.impact_ftes)).sum := by
  induction items with
  | nil => intro acc k; simp [itemsWithKey]
  | cons i is ih =>
    intro acc k
    simp only [List.foldl_cons]
    rw [ih (upsertGroup acc i) k, keyTotal_upsertGroup]
    by_cases h : i.function_key = k
    · simp [itemsWithKey, List.filter_cons, h]
      ring
    · simp [itemsWithKey, List.filter_cons, h]

/-- Folding the loop: per-key counts accumulate the number of matching items. -/
theorem keyCount_foldl (items : List RoadmapRoleItem) :
    ∀ (acc : List RollupGroup) (k : String),
      (((items.foldl upsertGroup acc).filter (fun g => g.function_key == k)).map
          (fun g => g.count)).sum =
        ((acc.filter (fun g => g.function_key == k)).map (fun g => g.count)).sum +
          (itemsWithKey items k).length := by
  induction items with
  | nil => intro acc k; simp [itemsWithKey]
  | cons i is ih =>
    intro acc k
    simp only [List.foldl_cons]
    rw [ih (upsertGroup acc i) k, keyCount_upsertGroup]
    by_cases h : i.function_key = k
    · simp [itemsWithKey, List.filter_cons, h]
      omega
    · simp [itemsWithKey, List.filter_cons, h]

/-- One loop step only adds the item's key to the key set. -/
theorem mem_keys_upsertGroup (gs : List RollupGroup) (i : RoadmapRoleItem) (k : String) :
    (k ∈ (upsertGroup gs i).map (fun g => g.function_key) ↔
      k = i.function_key ∨ k ∈ gs.map (fun g => g.function_key)) := by
  induction gs with
  | nil => simp [upsertGroup, eq_comm]
  | cons g gs ih =>
    by_cases hgi : g.function_key = i.function_key
    · simp [upsertGroup, hgi]
    · simp [upsertGroup, hgi, ih]
      tauto

/-- One loop step keeps the key list duplicate-free. -/
theorem nodup_keys_upsertGroup (gs : List RollupGroup) (i : RoadmapRoleItem)
    (h : (gs.map (fun g => g.function_key)).Nodup) :
    ((upsertGroup gs i).map (fun g => g.function_key)).Nodup := by
  induction gs with
  | nil => simp [upsertGroup]
  | cons g gs ih =>
    rw [List.map_cons] at h
    rcases List.nodup_cons.mp h with ⟨hg, hgs⟩
    by_cases hgi : g.function_key = i.function_key
    · simp only [upsertGroup, if_pos hgi, List.map_cons]
      exact List.nodup_cons.mpr ⟨hg, hgs⟩
    · simp only [upsertGroup, if_neg hgi, List.map_cons]
      refine List.nodup_cons.mpr ⟨?_, ih hgs⟩
      intro hmem
      rcases (mem_keys_upsertGroup gs i g.function_key).mp hmem with h1 | h2
      · exact hgi h1
      · exact hg h2

/-- Folding the loop: the key set is the accumulator's keys plus the items' keys. -/
theorem mem_keys_foldl (items : List RoadmapRoleItem) :
    ∀ (acc : List RollupGroup) (k : String),
      (k ∈ (items.foldl upsertGroup acc).map (fun g => g.function_key) ↔
        k ∈ acc.map (fun g => g.function_key) ∨
          k ∈ items.map (fun i => i.function_key)) := by
  induction items with
  | nil => intro acc k; simp
  | cons i is ih =>
    intro acc k
    simp only [List.foldl_cons, List.map_cons, List.mem_cons]
    rw [ih, mem_keys_upsertGroup]
    tauto

/-- Folding the loop keeps the key list duplicate-free. -/
theorem nodup_keys_foldl (items : List RoadmapRoleItem) :
    ∀ (acc : List RollupGroup), (acc.map (fun g => g.function_key)).Nodup →
      (((items.foldl upsertGroup acc)).map (fun g => g.function_key)).Nodup := by
  induction items with
  | nil => intro acc h; simpa using h
  | cons i is ih => intro acc h; exact ih _ (nodup_keys_upsertGroup acc i h)

/-- One loop step adds the item's FTEs to the sum of all group totals. -/
theorem sumTotals_upsertGroup (gs : List RollupGroup) (i : RoadmapRoleItem) :
    ((upsertGroup gs i).map (fun g => g.totalFtes)).sum =
      (gs.map (fun g => g.totalFtes)).sum + i.impact_ftes := by
  induction gs with
  | nil => simp [upsertGroup]
  | cons g gs ih =>
    by_cases hgi : g.function_key = i.function_key
    · simp [upsertGroup, hgi]
      ring
    · simp [upsertGroup, hgi, ih]
      ring

/-- Folding the loop: group totals sum to the items' FTE sum. -/
theorem sumTotals_foldl (items : List RoadmapRoleItem) :
    ∀ (acc : List RollupGroup),
      ((items.foldl upsertGroup acc).map (fun g => g.totalFtes)).sum =
        (acc.map (fun g => g.totalFtes)).sum +
          (items.map (fun i => i.impact_ftes)).sum := by
  induction items with
  | nil => intro acc; simp
  | cons i is ih =>
    intro acc
    simp only [List.foldl_cons, List.map_cons, List.sum_cons]
    rw [ih, sumTotals_upsertGroup]
    ring

/-- No group carries an absent key. -/
theorem filter_key_eq_nil (gs : List RollupGroup) (k : String)
    (h : k ∉ gs.map (fun g => g.function_key)) :
    gs.filter (fun g => g.function_key == k) = [] := by
  induction gs with
  | nil => rfl
  | cons g gs ih =>
    simp only [List.map_cons, List.mem_cons, not_or] at h
    have hne : ¬ g.function_key = k := fun he => h.1 he.symm
    simp [List.filter_cons, hne, ih h.2]

/-- With duplicate-free keys, filtering at a member's key yields exactly it. -/
theorem filter_key_single (gs : List RollupGroup) (g : RollupGroup)
    (hnd : (gs.map (fun x => x.function_key)).Nodup) (hmem : g ∈ gs) :
    gs.filter (fun x => x.function_key == g.function_key) = [g] := by
  induction gs with
  | nil => cases hmem
  | cons a t ih =>
    rw [List.map_cons] at hnd
    rcases List.nodup_cons.mp hnd with ⟨ha, ht⟩
    rcases List.mem_cons.mp hmem with rfl | hmem2
    · simp [List.filter_cons, filter_key_eq_nil t g.function_key ha]
    · have hne : ¬ a.function_key = g.function_key := by
        intro he
        exact ha (he ▸ (List.mem_map.mpr ⟨g, hmem2, rfl⟩))
      simp [List.filter_cons, hne, ih ht hmem2]

/-- `reduce((s, x) => s + f x, a)` is `a` plus the sum of the mapped list. -/
theorem foldl_add_eq_sum (f : α → Rat) (l : List α) :
    ∀ (a : Rat), l.foldl (fun s x => s + f x) a = a + (l.map f).sum := by
  induction l with
  | nil => intro a; simp
  | cons x xs ih =>
    intro a
    simp only [List.foldl_cons, List.map_cons, List.sum_cons]
    rw [ih]
    ring

/-! ## Lemmas about the ranked rows and string-keyed lookups -/

/-- Ranking preserves length. -/
theorem rankRows_length (l : List PriorityItem) :
    ∀ (i : Nat), (rankRows i l).length = l.length := by
  induction l with
  | nil => intro i; rfl
  | cons x xs ih => intro i; simp [rankRows, ih]

/-- Ranking leaves the items, in order. -/
theorem rankRows_map_snd (l : List PriorityItem) :
    ∀ (i : Nat), (rankRows i l).map Prod.snd = l := by
  induction l with
  | nil => intro i; rfl
  | cons x xs ih => intro i; simp [rankRows, ih]

/-- The printed rank at position `j` is `i + j + 1`. -/
theorem rankRows_get_fst (l : List PriorityItem) :
    ∀ (i j : Nat) (hj : j < (rankRows i l).length),
      ((rankRows i l).get ⟨j, hj⟩).1 = i + j + 1 := by
  induction l with
  | nil => intro i j hj; simp [rankRows] at hj
  | cons x xs ih =>
    intro i j hj
    cases j with
    | zero => rfl
    | succ j2 =>
      have h2 : j2 < (rankRows (i + 1) xs).length := by
        simpa [rankRows] using Nat.lt_of_succ_lt_succ (by simpa [rankRows] using hj)
      have := ih (i + 1) j2 h2
      simp only [rankRows, List.get_cons_succ]
      omega

/-- A key occurring in an association list's key column is found by `lookup`. -/
theorem lookup_isSome_of_key_mem {β : Type} (l : List (String × β)) (k : String)
    (h : k ∈ l.map Prod.fst) : ∃ d, l.lookup k = some d := by
  induction l with
  | nil => simp at h
  | cons p t ih =>
    by_cases hk : k = p.1
    · exact ⟨p.2, by simp [List.lookup, hk]⟩
    · rw [List.map_cons] at h
      have h2 : k ∈ t.map Prod.fst := by
        rcases List.mem_cons.mp h with h3 | h3
        · exact absurd h3 hk
        · exact h3
      have hbeq : (k == p.1) = false := beq_eq_false_iff_ne.mpr hk
      rcases ih h2 with ⟨d, hd⟩
      exact ⟨d, by simp [List.lookup, hbeq, hd]⟩

/-- A key absent from the key column makes `lookup` miss. -/
theorem lookup_eq_none_of_key_not_mem {β : Type} (l : List (String × β)) (k : String)
    (h : k ∉ l.map Prod.fst) : l.lookup k = none := by
  induction l with
  | nil => rfl
  | cons p t ih =>
    simp only [List.map_cons, List.mem_cons, not_or] at h
    have hbeq : (k == p.1) = false := beq_eq_false_iff_ne.mpr h.1
    simp [List.lookup, hbeq, ih h.2]

/-! ## Claim theorems -/

/-- C4, counterexample: the claim says the maturity helper maps \"Basic\" to
chart position 0 and maps every unrecognized level to Basic's position in
both lookups; on the code `MATURITY_VALUE` maps \"Basic\" to 1, and the
target-level lookup defaults an unrecognized string to 3 (Next-gen's value),
not to Basic's. -/
theorem maturity_zero_based_refuted :
    maturityCurrentValue "Basic" ≠ 0 ∧
    maturityTargetValue "totally-unknown-level" ≠ maturityCurrentValue "Basic" := by
  decide

/-- C4, amended: the maturity helper maps \"Basic\"/\"Advanced\"/\"Next-gen\" to
ordinal chart positions 1/2/3 (one-based, in both lookups); an unrecognized
level string defaults to 1 (Basic's position) in the current-level lookup and
to 3 (Next-gen's position) in the target-level lookup. -/
theorem maturity_position_mapping :
    maturityCurrentValue "Basic" = 1 ∧ maturityCurrentValue "Advanced" = 2 ∧
    maturityCurrentValue "Next-gen" = 3 ∧
    maturityTargetValue "Basic" = 1 ∧ maturityTargetValue "Advanced" = 2 ∧
    maturityTargetValue "Next-gen" = 3 ∧
    (∀ s : String, s ∉ ["Basic", "Advanced", "Next-gen"] →
      maturityCurrentValue s = 1 ∧ maturityTargetValue s = 3) := by
  refine ⟨rfl, rfl, rfl, rfl, rfl, rfl, ?_⟩
  intro s hs
  have hnone : MATURITY_VALUE.lookup s = none := by
    apply lookup_eq_none_of_key_not_mem
    simpa [MATURITY_VALUE] using hs
  exact ⟨by simp [maturityCurrentValue, hnone], by simp [maturityTargetValue, hnone]⟩

/-- C4, witness: the amended theorem applied to the unrecognized level
\"Unscored\". -/
theorem maturity_position_mapping_witness :
    maturityCurrentValue "Unscored" = 1 ∧ maturityTargetValue "Unscored" = 3 :=
  maturity_position_mapping.2.2.2.2.2.2 "Unscored" (by decide)

/-- C7, counterexample: the claim says every unrecognized maturity string maps
to the documented default for \"Basic\" in both lookups; the target-level
lookup instead defaults to Next-gen's value 3. -/
theorem classification_basic_default_refuted :
    maturityTargetValue "Unrated-Level" ≠ maturityCurrentValue "Basic" := by
  decide

/-- C7, amended: every classification helper is a total function that never
raises; on unrecognized input the offshoring-rating helper and the quartile
badge return their gray/neutral bucket, while the maturity lookups default to
Basic's position (current) and Next-gen's position (target) respectively. -/
theorem classification_defaults :
    ∀ s : String,
      (s ∉ ["High", "Medium-High", "Medium", "Low", "Not Recommended"] →
        offshoreColor s = "bg-gray-50 border-gray-200 text-gray-700") ∧
      (s ∉ ["Q1", "Q2", "Q3", "Q4"] →
        quartileBadgeColor s = "bg-slate-100 text-slate-800") ∧
      (s ∉ ["Basic", "Advanced", "Next-gen"] →
        maturityCurrentValue s = 1 ∧ maturityTargetValue s = 3) := by
  intro s
  refine ⟨?_, ?_, ?_⟩
  · intro hs
    simp only [List.mem_cons, List.not_mem_nil, or_false, not_or] at hs
    obtain ⟨h1, h2, h3, h4, h5⟩ := hs
    simp [offshoreColor, h1, h2, h3, h4, h5]
  · intro hs
    simp only [List.mem_cons, List.not_mem_nil, or_false, not_or] at hs
    obtain ⟨h1, h2, h3, h4⟩ := hs
    simp [quartileBadgeColor, List.lookup, beq_eq_false_iff_ne.mpr h1,
      beq_eq_false_iff_ne.mpr h2, beq_eq_false_iff_ne.mpr h3, beq_eq_false_iff_ne.mpr h4]
  · intro hs
    have hnone : MATURITY_VALUE.lookup s = none := by
      apply lookup_eq_none_of_key_not_mem
      simpa [MATURITY_VALUE] using hs
    exact ⟨by simp [maturityCurrentValue, hnone], by simp [maturityTargetValue, hnone]⟩

/-- C7, witness: the amended theorem applied to concrete unrecognized inputs. -/
theorem classification_defaults_witness :
    offshoreColor "industry-wide" = "bg-gray-50 border-gray-200 text-gray-700" ∧
    quartileBadgeColor "Q5" = "bg-slate-100 text-slate-800" ∧
    maturityCurrentValue "Unknown" = 1 ∧ maturityTargetValue "Unknown" = 3 :=
  ⟨(classification_defaults "industry-wide").1 (by decide),
   (classification_defaults "Q5").2.1 (by decide),
   ((classification_defaults "Unknown").2.2 (by decide)).1,
   ((classification_defaults "Unknown").2.2 (by decide)).2⟩

/-- C10: for every `FunctionData` whose `function_key` is not one of the three
named functions, the panel's color lookup returns exactly the
`professional_services` blue scheme (the first named function's styling), not
a neutral default. -/
theorem funcPanel_unknown_key_blue :
    ∀ (d : FunctionData),
      d.function_key ∉ ["professional_services", "customer_success", "customer_support"] →
      funcPanelColors d = psColors ∧
      psColors = ⟨"bg-blue-50", "bg-blue-100 text-blue-800", "border-blue-300"⟩ := by
  intro d hd
  refine ⟨?_, rfl⟩
  have hnone : FUNC_COLORS.lookup d.function_key = none := by
    apply lookup_eq_none_of_key_not_mem
    simpa [FUNC_COLORS] using hd
  simp [funcPanelColors, hnone]

/-- C10, witness: the theorem applied to a function document with the unknown
key \"unknown_dept\". -/
theorem funcPanel_unknown_key_blue_witness :
    funcPanelColors unknownDeptFunction = psColors :=
  (funcPanel_unknown_key_blue unknownDeptFunction (by decide)).1

/-- C9: none of the aggregation or rendering operations mutates the source
document: the benchmark chart sorts a spread copy of the peer array, and the
Function Rollup and roadmap summary only read their input, so the document
state each operation hands back equals the input document. -/
theorem aggregations_preserve_document :
    (∀ (nrr : NRRData), (nrrBenchmarkChart nrr).2 = nrr) ∧
    (∀ (items : List RoadmapRoleItem), (functionRollupRun items).2 = items) ∧
    (∀ (r : Roadmap), (roadmapSummaryRun r).2 = r) :=
  ⟨fun _ => rfl, fun _ => rfl, fun _ => rfl⟩

/-- C5: the roadmap summary's productivity and offshoring totals sum
`impact_ftes` over the 2026 (year-1) item lists only, while the AI total sums
`estimated_fte_impact` over the flat all-years `ai_use_cases` list. -/
theorem roadmapSummary_year_scoping :
    ∀ (r : Roadmap),
      roadmapSummary r =
        ((r.ai_use_cases.map (fun uc => uc.estimated_fte_impact)).sum,
         (r.years.y2026.productivity.map (fun i => i.impact_ftes)).sum,
         (r.years.y2026.offshoring.map (fun i => i.impact_ftes)).sum) := by
  intro r
  simp [roadmapSummary, foldl_add_eq_sum]

/-- C8, counterexample: the claim says every document-fetch path falls back to
a bundled copy on failure; the assessment app's load path instead surfaces an
error banner and displays no data when the fetch fails. -/
theorem assessment_fallback_refuted :
    (appAfterLoad (FetchOutcome.failure "Failed to load assessment data (404)")).assessment
        = none ∧
    (appAfterLoad (FetchOutcome.failure "Failed to load assessment data (404)")).error
        = some "Failed to load assessment data (404)" :=
  ⟨rfl, rfl⟩

/-- C8, amended: the portal diagnostics list keeps the bundled fallback on any
failure, non-array payload, or empty array, and adopts the fetched list only
for a successful non-empty array; the assessment document load shows the
fetched document on success and surfaces an error with no data on failure. -/
theorem fetch_fallback_behavior :
    (∀ (fb : List Diagnostic) (msg : String),
      diagnosticsAfterLoad fb (FetchOutcome.failure msg) = (fb, false)) ∧
    (∀ (fb : List Diagnostic),
      diagnosticsAfterLoad fb (FetchOutcome.success DiagPayload.notArray) = (fb, false)) ∧
    (∀ (fb : List Diagnostic),
      diagnosticsAfterLoad fb (FetchOutcome.success (DiagPayload.arr [])) = (fb, false)) ∧
    (∀ (fb ds : List Diagnostic), ds ≠ [] →
      diagnosticsAfterLoad fb (FetchOutcome.success (DiagPayload.arr ds)) = (ds, true)) ∧
    (∀ (d : AssessmentData), appAfterLoad (FetchOutcome.success d) = ⟨some d, none⟩) ∧
    (∀ (msg : String), appAfterLoad (FetchOutcome.failure msg) = ⟨none, some msg⟩) := by
  refine ⟨fun fb msg => rfl, fun fb => rfl, fun fb => rfl, ?_,
    fun d => rfl, fun msg => rfl⟩
  intro fb ds hds
  simp [diagnosticsAfterLoad, hds]

/-- C8, witness: the amended theorem applied to a successful fetch of a
one-element diagnostics array. -/
theorem fetch_fallback_behavior_witness :
    diagnosticsAfterLoad [] (FetchOutcome.success (DiagPayload.arr [sampleDiagnostic])) =
      ([sampleDiagnostic], true) :=
  fetch_fallback_behavior.2.2.2.1 [] [sampleDiagnostic] (by simp)

/-! ## Corollaries for the rollup over the empty accumulator -/

/-- The per-key total of the built groups is the matching items' FTE sum. -/
theorem keyTotal_byFunctionGroups (items : List RoadmapRoleItem) (k : String) :
    (((byFunctionGroups items).filter (fun g => g.function_key == k)).map
        (fun g => g.totalFtes)).sum =
      ((itemsWithKey items k).map (fun i => i.impact_ftes)).sum := by
  have h := keyTotal_foldl items [] k
  simpa [byFunctionGroups] using h

/-- The per-key count of the built groups is the number of matching items. -/
theorem keyCount_byFunctionGroups (items : List RoadmapRoleItem) (k : String) :
    (((byFunctionGroups items).filter (fun g => g.function_key == k)).map
        (fun g => g.count)).sum =
      (itemsWithKey items k).length := by
  have h := keyCount_foldl items [] k
  simpa [byFunctionGroups] using h

/-- The built groups carry exactly the keys occurring in the items. -/
theorem mem_keys_byFunctionGroups (items : List RoadmapRoleItem) (k : String) :
    k ∈ (byFunctionGroups items).map (fun g => g.function_key) ↔
      k ∈ items.map (fun i => i.function_key) := by
  have h := mem_keys_foldl items [] k
  simpa [byFunctionGroups] using h

/-- The built groups' keys are duplicate-free. -/
theorem nodup_keys_byFunctionGroups (items : List RoadmapRoleItem) :
    ((byFunctionGroups items).map (fun g => g.function_key)).Nodup :=
  nodup_keys_foldl items [] (by simp)

/-- The built groups' totals sum to the items' FTE sum. -/
theorem sumTotals_byFunctionGroups (items : List RoadmapRoleItem) :
    ((byFunctionGroups items).map (fun g => g.totalFtes)).sum =
      (items.map (fun i => i.impact_ftes)).sum := by
  have h := sumTotals_foldl items []
  simpa [byFunctionGroups] using h

/-- C6: with the quartile thresholds in their defining order
(`bottomQuartile ≤ median ≤ topQuartile`), the chart's classification is
Q1 iff `v ≥ topQuartile`, Q2 iff `median ≤ v < topQuartile`,
Q3 iff `bottomQuartile ≤ v < median`, and Q4 otherwise (`v < bottomQuartile`). -/
theorem nrrQuartile_classification :
    ∀ (v q1 q4 median : Rat), q4 ≤ median → median ≤ q1 →
      ((nrrQuartile v q1 q4 median = "Q1" ↔ q1 ≤ v) ∧
       (nrrQuartile v q1 q4 median = "Q2" ↔ median ≤ v ∧ v < q1) ∧
       (nrrQuartile v q1 q4 median = "Q3" ↔ q4 ≤ v ∧ v < median) ∧
       (nrrQuartile v q1 q4 median = "Q4" ↔ v < q4)) := by
  intro v q1 q4 median h1 h2
  by_cases ha : v ≥ q1
  · have hb : v ≥ median := le_trans h2 ha
    have hc : v ≥ q4 := le_trans h1 hb
    simp [nrrQuartile, quartileColor, quartileOfColor, ha, hb, hc, not_lt.mpr ha]
  · by_cases hb : v ≥ median
    · have hc : v ≥ q4 := le_trans h1 hb
      simp [nrrQuartile, quartileColor, quartileOfColor, ha, hb, hc,
        lt_of_not_le ha, not_lt.mpr hb, not_lt.mpr hc]
    · by_cases hc : v ≥ q4
      · simp [nrrQuartile, quartileColor, quartileOfColor, ha, hb, hc,
          lt_of_not_le hb, not_lt.mpr hc]
      · simp [nrrQuartile, quartileColor, quartileOfColor, ha, hb, hc,
          lt_of_not_le hc]

/-- C6, witness: NRR 118 against thresholds topQuartile 120, median 110,
bottomQuartile 95 classifies as Q2. -/
theorem nrrQuartile_classification_witness :
    nrrQuartile 118 120 95 110 = "Q2" :=
  ((nrrQuartile_classification 118 120 95 110 (by norm_num) (by norm_num)).2.1).mpr
    ⟨by norm_num, by norm_num⟩

/-- C1, counterexample: the claim asserts the rendered Priority Ranking rows
are non-increasing in `impact_ftes` for arbitrary input order; `PriorityMatrix`
only slices and never sorts, so the two-item ascending input stays ascending. -/
theorem priorityMatrix_unsorted_refuted :
    ¬ sortedDescBy (fun r => r.2.impact_ftes) (priorityMatrixRows [pLow, pHigh]) := by
  intro h
  have hrows : priorityMatrixRows [pLow, pHigh] = [(1, pLow), (2, pHigh)] := rfl
  rw [hrows] at h
  have h2 : pHigh.impact_ftes ≤ pLow.impact_ftes :=
    (List.pairwise_cons.mp h).1 (2, pHigh) (List.mem_cons_self _ _)
  norm_num [pLow, pHigh] at h2

/-- C1, amended: the table renders the first `min 20 |items|` items in input
order — at most 20 rows, all of them when fewer exist, no padding — with rank
`j + 1` at position `j`; the rows are non-increasing in `impact_ftes` whenever
the input list already is (the sort the spec describes is performed upstream,
not by this component). -/
theorem priorityMatrix_rows_spec :
    ∀ (items : List PriorityItem),
      (priorityMatrixRows items).length = min 20 items.length ∧
      (priorityMatrixRows items).map Prod.snd = items.take 20 ∧
      (∀ (j : Nat) (hj : j < (priorityMatrixRows items).length),
        ((priorityMatrixRows items).get ⟨j, hj⟩).1 = j + 1) ∧
      (sortedDescBy (fun it => it.impact_ftes) items →
        sortedDescBy (fun r => r.2.impact_ftes) (priorityMatrixRows items)) := by
  intro items
  refine ⟨?_, ?_, ?_, ?_⟩
  · rw [priorityMatrixRows, rankRows_length, List.length_take]
  · rw [priorityMatrixRows, rankRows_map_snd]
  · intro j hj
    simpa [priorityMatrixRows] using rankRows_get_fst (items.take 20) 0 j hj
  · intro hs
    have h1 : sortedDescBy (fun it => it.impact_ftes) (items.take 20) :=
      hs.sublist (List.take_sublist 20 items)
    have h2 : ((rankRows 0 (items.take 20)).map Prod.snd).Pairwise
        (fun a b => b.impact_ftes ≤ a.impact_ftes) := by
      rw [rankRows_map_snd]
      exact h1
    exact List.pairwise_map.mp h2

/-- C1, witness: the amended theorem applied to a two-item pre-sorted input:
the rows stay non-increasing and the first rank is 1. -/
theorem priorityMatrix_rows_spec_witness :
    sortedDescBy (fun it => it.impact_ftes) [pHigh, pLow] ∧
    sortedDescBy (fun r => r.2.impact_ftes) (priorityMatrixRows [pHigh, pLow]) ∧
    ((priorityMatrixRows [pHigh, pLow]).get ⟨0, by decide⟩).1 = 1 := by
  have hs : sortedDescBy (fun it => it.impact_ftes) [pHigh, pLow] := by
    refine List.pairwise_cons.mpr ⟨?_, List.pairwise_singleton _ _⟩
    intro z hz
    rw [List.mem_singleton.mp hz]
    norm_num [pLow, pHigh]
  exact ⟨hs, (priorityMatrix_rows_spec [pHigh, pLow]).2.2.2 hs,
    (priorityMatrix_rows_spec [pHigh, pLow]).2.2.1 0 (by decide)⟩

/-- C2: the Function Rollup groups a role-item list by `function_key`: the
group keys are exactly the distinct keys of the input (one group each); each
group's `totalFtes` is the FTE sum and `count` the number of the items
carrying its key; the group list is non-increasing in `totalFtes` with the
stable tie-break (groups at any equal total keep their first-occurrence
order); the grand total is the arithmetic sum of all items' `impact_ftes`; and
the empty input yields the empty group list and a zero total. -/
theorem functionRollup_correct :
    (∀ (items : List RoadmapRoleItem),
      (∀ k : String,
        k ∈ (functionRollupGroups items).map (fun g => g.function_key) ↔
          k ∈ items.map (fun i => i.function_key)) ∧
      ((functionRollupGroups items).map (fun g => g.function_key)).Nodup ∧
      (∀ g ∈ functionRollupGroups items,
        g.totalFtes =
          ((itemsWithKey items g.function_key).map (fun i => i.impact_ftes)).sum ∧
        g.count = (itemsWithKey items g.function_key).length) ∧
      sortedDescBy (fun g => g.totalFtes) (functionRollupGroups items) ∧
      (∀ t : Rat, groupsWithTotal (functionRollupGroups items) t =
        groupsWithTotal (byFunctionGroups items) t) ∧
      functionRollupGrandTotal items = (items.map (fun i => i.impact_ftes)).sum) ∧
    functionRollupGroups [] = [] ∧ functionRollupGrandTotal [] = 0 := by
  refine ⟨?_, rfl, rfl⟩
  intro items
  have hperm : List.Perm (functionRollupGroups items) (byFunctionGroups items) :=
    perm_sortDescBy _ _
  have hnodupBy := nodup_keys_byFunctionGroups items
  refine ⟨?_, ?_, ?_, ?_, ?_, ?_⟩
  · intro k
    rw [(hperm.map (fun g => g.function_key)).mem_iff]
    exact mem_keys_byFunctionGroups items k
  · exact (hperm.map (fun g => g.function_key)).nodup_iff.mpr hnodupBy
  · intro g hg
    have hgBy : g ∈ byFunctionGroups items := hperm.mem_iff.mp hg
    have hsingle := filter_key_single (byFunctionGroups items) g hnodupBy hgBy
    constructor
    · have htot := keyTotal_byFunctionGroups items g.function_key
      rw [hsingle] at htot
      simpa using htot
    · have hcnt := keyCount_byFunctionGroups items g.function_key
      rw [hsingle] at hcnt
      simpa using hcnt
  · exact sorted_sortDescBy _ _
  · intro t
    exact filter_key_sortDescBy (fun g => g.totalFtes) (byFunctionGroups items) t
  · have hsum : ((functionRollupGroups items).map (fun g => g.totalFtes)).sum =
        ((byFunctionGroups items).map (fun g => g.totalFtes)).sum :=
      (hperm.map (fun g => g.totalFtes)).sum_eq
    rw [functionRollupGrandTotal, foldl_add_eq_sum, zero_add, hsum,
      sumTotals_byFunctionGroups]

/-- C2, witness: Example 1 of the spec — items customer_success 10 and 5 and
support 8 roll up to a customer_success group with total 15 and count 2. -/
theorem functionRollup_correct_witness :
    csGroup ∈ functionRollupGroups ex1Items ∧
    csGroup.totalFtes =
      ((itemsWithKey ex1Items csGroup.function_key).map (fun i => i.impact_ftes)).sum ∧
    csGroup.count = (itemsWithKey ex1Items csGroup.function_key).length := by
  have hgroups : functionRollupGroups ex1Items =
      [csGroup, ⟨"Support", "support", 8, 1⟩] := by
    norm_num [functionRollupGroups, byFunctionGroups, ex1Items, upsertGroup,
      sortDescBy, insertDescBy, csGroup, List.foldl]
  have hmem : csGroup ∈ functionRollupGroups ex1Items := by
    rw [hgroups]
    exact List.mem_cons_self _ _
  have h := (functionRollup_correct.1 ex1Items).2.2.1 csGroup hmem
  exact ⟨hmem, h.1, h.2⟩

/-- C3, counterexample: the claim asserts the per-year rendering and the
2026-scoped summary are total even when the years map lacks a year key; on the
code `roadmap.years['2026']` is accessed unguarded, so a document without the
2026 entry throws (modelled as `none`) instead of yielding a zero aggregate. -/
theorem roadmap_totality_refuted :
    roadmapSummaryOfDoc docMissing2026 = none ∧
    priorityRoadmapRender docMissing2026 = none := by
  exact ⟨by decide, by decide⟩

/-- C3, amended: for documents whose years map contains entries for 2026,
2027 and 2028, the roadmap rendering and the summary are total (no exception)
over arbitrary item lists — including empty lists and unknown `function_key`
values — and an empty year renders as the all-zero, all-empty cell; a document
lacking one of the three year keys instead throws on the unguarded year-map
access. -/
theorem roadmap_totality :
    ∀ (doc : RoadmapDoc),
      "2026" ∈ doc.years.map Prod.fst →
      "2027" ∈ doc.years.map Prod.fst →
      "2028" ∈ doc.years.map Prod.fst →
      (priorityRoadmapRender doc).isSome ∧
      (roadmapSummaryOfDoc doc).isSome ∧
      (∀ y : String, doc.years.lookup y = some emptyYearData →
        renderYearCell doc y = some ⟨0, [], 0, [], 0, true⟩) := by
  intro doc h26 h27 h28
  obtain ⟨d26, hd26⟩ := lookup_isSome_of_key_mem doc.years "2026" h26
  obtain ⟨d27, hd27⟩ := lookup_isSome_of_key_mem doc.years "2027" h27
  obtain ⟨d28, hd28⟩ := lookup_isSome_of_key_mem doc.years "2028" h28
  refine ⟨?_, ?_, ?_⟩
  · simp [priorityRoadmapRender, renderYearCell, roadmapSummaryOfDoc, hd26, hd27, hd28]
  · simp [roadmapSummaryOfDoc, hd26]
  · intro y hy
    simp only [renderYearCell, hy]
    rfl

/-- C3, witness: the amended theorem applied to a document with all three year
keys present and every year empty. -/
theorem roadmap_totality_witness :
    (priorityRoadmapRender docAllYears).isSome ∧
    (roadmapSummaryOfDoc docAllYears).isSome ∧
    renderYearCell docAllYears "2026" = some ⟨0, [], 0, [], 0, true⟩ := by
  have h := roadmap_totality docAllYears (by decide) (by decide) (by decide)
  exact ⟨h.1, h.2.1, h.2.2 "2026" (by decide)⟩

end NrrCx
